import Mathlib

/-!
Shallow embedding of the glue code of `9_knowledge_base_rag_in_slack.py`,
a Slack RAG chatbot script.  External effects (the HTTP client, the JSON
parser of the standard library, Flask, the LLM query engine, the vector
index) are passed in as explicit oracle functions; the control flow,
string manipulation and nested-dictionary traversal of the script itself
are translated faithfully.  Python exceptions are modelled with `Except`.
-/

namespace SlackRag

/-- Python exceptions that the script can raise. -/
inductive PyError where
  | unboundLocal
  | typeError
  | jsonDecode
  deriving DecidableEq, Repr

/-- Parsed JSON values, the result type of the external `json.loads`. -/
inductive Json where
  | null
  | bool (b : Bool)
  | num (n : Int)
  | str (s : String)
  | arr (elts : List Json)
  | obj (fields : List (String × Json))

/-- The environment variables the script reads for the WooCommerce call. -/
structure Env where
  wc_domain : Option String
  wc_consumer_key : Option String
  wc_consumer_secret : Option String
  deriving DecidableEq, Repr

/-- One outgoing `requests.post` call: URL, decoded JSON body and the
basic-auth pair `(WC_CONSUMER_KEY, WC_CONSUMER_SECRET)`. -/
structure HttpRequest where
  url : String
  body : Json
  auth_key : Option String
  auth_secret : Option String

/-- The response the HTTP oracle returns: `status_code` and `text`. -/
structure HttpResponse where
  status_code : Nat
  text : String
  deriving DecidableEq, Repr

/-- Python `f"{x}"` on an optional string: `None` prints as `"None"`. -/
def optStr : Option String → String
  | none => "None"
  | some s => s

/-- Python whitespace characters stripped by `str.strip()`. -/
def isPyWs (c : Char) : Bool :=
  c = ' ' || c = '\t' || c = '\n' || c = '\x0d' || c = '\x0b' || c = '\x0c'

/-- Python `str.strip()`: drop whitespace from both ends. -/
def pyStrip (s : String) : String :=
  String.mk (((s.data.dropWhile isPyWs).reverse.dropWhile isPyWs).reverse)

/-- Whether `p` matches at the head of `s` (character-list version). -/
def headMatches : List Char → List Char → Bool
  | [], _ => true
  | _ :: _, [] => false
  | p :: ps, c :: cs => p = c && headMatches ps cs

/-- The characters of `s` before the first occurrence of `pat`, or `none`
when `pat` does not occur: the lazy `(.*?)` group up to the closing tag. -/
def takeBefore (pat : List Char) : List Char → Option (List Char)
  | [] => if pat.isEmpty then some [] else none
  | c :: rest =>
    if headMatches pat (c :: rest) then some []
    else
      match takeBefore pat rest with
      | some g => some (c :: g)
      | none => none

/-- The group of `re.search(open ++ "(.*?)" ++ close, s, re.DOTALL)`: at the
leftmost position where `o` matches and `c` occurs later, the (newline
spanning, shortest) characters between the end of `o` and the first
following occurrence of `c`.  If a candidate start has no closing tag after
it, the search moves one character right, as the regex engine does. -/
def extractBetween (o c : List Char) : List Char → Option (List Char)
  | [] => none
  | x :: rest =>
    if headMatches o (x :: rest) then
      match takeBefore c (List.drop o.length (x :: rest)) with
      | some g => some g
      | none => extractBetween o c rest
    else extractBetween o c rest

/-- String version of `extractBetween`: the first non-greedy tagged group. -/
def extractTag (o c s : String) : Option String :=
  (extractBetween o.data c.data s.data).map String.mk

/-- Everything `dispatch_store_action` does that the outside can see: the
posts it issued in order, the `boxen_print` log lines, and either the
returned string or the exception that escaped. -/
structure DispatchResult where
  posts : List HttpRequest
  logs : List String
  result : Except PyError String

/-- The request `dispatch_store_action` builds from the two stripped tag
groups: `f"{WC_DOMAIN}/{endpoint}"` with the decoded payload as body and
the consumer key/secret pair as basic auth. -/
def dispatchRequest (env : Env) (body : Json) (endpoint : String) : HttpRequest :=
  { url := optStr env.wc_domain ++ "/" ++ endpoint
    body := body
    auth_key := env.wc_consumer_key
    auth_secret := env.wc_consumer_secret }

/-- Embedding of `dispatch_store_action(data)`.  `jsonLoads` is the external
`json.loads` (`none` models a `JSONDecodeError` being raised) and `post` is
the external `requests.post`.  In the branch where a tag fails to match the
source prints the error box and then executes `return response_text` with
`response_text` never assigned, so an `UnboundLocalError` escapes. -/
def dispatch_store_action (env : Env) (jsonLoads : String → Option Json)
    (post : HttpRequest → HttpResponse) (data : String) : DispatchResult :=
  match extractTag "<PAYLOAD>" "</PAYLOAD>" data,
        extractTag "<ENDPOINT>" "</ENDPOINT>" data with
  | some pm, some em =>
    let payload := pyStrip pm
    let endpoint := pyStrip em
    match jsonLoads payload with
    | none =>
      { posts := []
        logs := ["Payload: " ++ payload, "Payload: " ++ endpoint]
        result := Except.error PyError.jsonDecode }
    | some body =>
      let req := dispatchRequest env body endpoint
      let response := post req
      let response_text :=
        if response.status_code = 200 || response.status_code = 201 then
          "API call successful!"
        else
          "Failed API call: " ++ toString response.status_code ++ " - " ++ response.text
      { posts := [req]
        logs := ["Payload: " ++ payload, "Payload: " ++ endpoint, response_text]
        result := Except.ok response_text }
  | _, _ =>
    { posts := []
      logs := ["Failed to extract payload or endpoint."]
      result := Except.error PyError.unboundLocal }

/-- A JSON-object request body, as Flask's `request.json` yields it for the
payloads Slack sends: `none` models an absent or null body. -/
def RequestBody := Option (List (String × Json))

/-- Python `bool(d)` for a dict: true when it has at least one key. -/
def pyDictTruthy (kvs : List (String × Json)) : Bool :=
  !kvs.isEmpty

/-- Python `k in d` for a dict. -/
def dictHasKey (k : String) (kvs : List (String × Json)) : Bool :=
  kvs.any (fun kv => kv.1 = k)

/-- Python `d.get(k)` / guarded `d[k]` for a dict. -/
def dictGet (k : String) (kvs : List (String × Json)) : Option Json :=
  (kvs.find? (fun kv => kv.1 = k)).map (fun kv => kv.2)

/-- What the route handler answers with: the echoed challenge JSON, or the
request forwarded to `handler.handle` (the Bolt adapter). -/
inductive FlaskResponse where
  | challengeEcho (v : Json)
  | boltHandled

/-- Embedding of the `slack_challenge` route: when the JSON body is truthy
and has a `"challenge"` key, answer `jsonify` of that value; otherwise fall
through to `handler.handle(request)`.  The inner `none` arm is unreachable,
since a dict that has the key yields a value. -/
def slack_challenge (body : RequestBody) : FlaskResponse :=
  match body with
  | none => FlaskResponse.boltHandled
  | some kvs =>
    if pyDictTruthy kvs && dictHasKey "challenge" kvs then
      match dictGet "challenge" kvs with
      | some v => FlaskResponse.challengeEcho v
      | none => FlaskResponse.boltHandled
    else FlaskResponse.boltHandled

/-- The two startup branches of the module body. -/
inductive IndexInit where
  | builtAndPersisted
  | loadedFromStorage
  deriving DecidableEq, Repr

/-- Embedding of the startup conditional on `PERSIST_DIR`: when
`./storage` does not exist, fetch the documents, build the vector index
and persist it; otherwise load the index from storage. -/
def startup_index (storage_exists : Bool) : IndexInit :=
  if !storage_exists then IndexInit.builtAndPersisted
  else IndexInit.loadedFromStorage

/-- One element of a rich-text section: what `reply` reads of it via
`.get`, each key possibly absent (`.get` then yields `None`). -/
structure Element where
  type : Option String
  user_id : Option String
  text : Option String
  deriving DecidableEq, Repr

/-- One member of a rich-text block's `elements` list. -/
structure RichTextSection where
  elements : Option (List Element)
  deriving DecidableEq, Repr

/-- One member of the message's `blocks` list. -/
structure Block where
  type : Option String
  elements : Option (List RichTextSection)
  deriving DecidableEq, Repr

/-- The incoming Slack message object, restricted to the keys `reply`
reads. -/
structure Message where
  blocks : Option (List Block)
  text : Option String
  deriving DecidableEq, Repr

/-- The line-178 test of the source: an element of type `user` whose
`user_id` is the bot's. -/
def isBotMention (bot : String) (e : Element) : Bool :=
  e.type = some "user" && e.user_id = some bot

/-- The inner `for element in rich_text_section.get('elements')` loop run
after a mention fired: the `text` value of the first element of type
`text`, or `none` when the loop completes without one. -/
def findTextQuery : List Element → Option (Option String)
  | [] => none
  | e :: rest =>
    if e.type = some "text" then some e.text else findTextQuery rest

/-- How far one run of the nested loops got. -/
inductive StepRes where
  | raised (fired : Bool)
  | acted (q : Option String)
  | done (fired : Bool)
  deriving DecidableEq, Repr

/-- The `for element in rich_text_section.get('elements')` loop of `reply`
over the remaining elements `els` of a section whose full element list is
`secEls`; `fired` records whether the mention test has held so far.
`Sum.inr q` means the handler acted with query text `q`; `Sum.inl f` means
the loop completed with the mention flag at `f`. -/
def scanElems (bot : String) (secEls : List Element) (fired : Bool) :
    List Element → Bool ⊕ Option String
  | [] => Sum.inl fired
  | e :: rest =>
    if isBotMention bot e then
      match findTextQuery secEls with
      | some q => Sum.inr q
      | none => scanElems bot secEls true rest
    else scanElems bot secEls fired rest

/-- The `for rich_text_section in block.get('elements')` loop of `reply`.
A section whose `elements` key is missing makes Python iterate over `None`:
a `TypeError` is raised. -/
def scanSecs (bot : String) (fired : Bool) : List RichTextSection → StepRes
  | [] => StepRes.done fired
  | s :: rest =>
    match s.elements with
    | none => StepRes.raised fired
    | some els =>
      match scanElems bot els fired els with
      | Sum.inr q => StepRes.acted q
      | Sum.inl fired2 => scanSecs bot fired2 rest

/-- The `for block in message.get('blocks')` loop of `reply`: only blocks
of type `rich_text` are entered, and a `rich_text` block without an
`elements` key raises as the section loop iterates over `None`. -/
def scanBlocks (bot : String) (fired : Bool) : List Block → StepRes
  | [] => StepRes.done fired
  | b :: rest =>
    if b.type = some "rich_text" then
      match b.elements with
      | none => StepRes.raised fired
      | some secs =>
        match scanSecs bot fired secs with
        | StepRes.done fired2 => scanBlocks bot fired2 rest
        | r => r
    else scanBlocks bot fired rest

/-- The whole traversal of `reply` over one message: the outer
`if message.get('blocks')` truthiness test, then the block loop. -/
def scanMsg (bot : String) (msg : Message) : StepRes :=
  match msg.blocks with
  | some (b :: bs) => scanBlocks bot false (b :: bs)
  | _ => StepRes.done false

/-- Whether the run classified the message as a mention of the bot: the
line-178 test fired at some visited element (every `acted` run fired). -/
def classifiedB : StepRes → Bool
  | StepRes.raised f => f
  | StepRes.acted _ => true
  | StepRes.done f => f

/-- Python `repr` of a string with no quote or backslash in it. -/
def pyReprStr (s : String) : String :=
  "\x27" ++ s ++ "\x27"

/-- Python `str` of a tuple of such strings: `(\x27a\x27, \x27b\x27)`. -/
def pyTupleStr (xs : List String) : String :=
  "(" ++ String.intercalate ", " (xs.map pyReprStr) ++ ")"

/-- The `SYSTEM_PROMPT` of the source.  The trailing comma after each
element and the juxtaposed string literals make it a 4-tuple of strings,
not one string: the third and fourth source literals glue without a comma
into the last element. -/
def SYSTEM_PROMPT : List String :=
  ["As a WooCommerce AI Store Assistant, your role is to process requests related to store management tasks such as generating coupons or creating new products. For each user request, provide a response that includes the corresponding payload that needed in an object format and the full endpoint URL without the domain URL, only everything after and including /wp-json/wc.",
   "Your response should look exactly like this <PAYLOAD>Here you should put the payload object</PAYLOAD><ENDPOINT>Here you should put the endpoint</ENDPOINT>",
   "You should only include the payload and the endpoint inside the template tags",
   "If a request cannot be fulfilled because it is not supported by your current capabilities, instruct the user to modify their inquiry.Always ensure your responses are actionable and precise."]

/-- What `f"{SYSTEM_PROMPT} {query}"` interpolates for the tuple. -/
def SYSTEM_PROMPT_STR : String :=
  pyTupleStr SYSTEM_PROMPT

/-- Everything one run of the `reply` handler does that the outside can
see: the index queries, the strings handed to `dispatch_store_action`, the
`say` calls, the documents inserted into the index, and normal return or
the exception that escaped. -/
structure ReplyResult where
  queries : List String
  dispatches : List String
  sayCalls : List String
  inserts : List (Option String)
  outcome : Except PyError Unit

/-- Embedding of the `reply` message handler.  `queryEngine` is the
external `index.as_query_engine().query` composed with `str`;
`dispatchFn` is the external behaviour of `dispatch_store_action` as seen
from here (instantiate it with `fun d => (dispatch_store_action ...).result`
to compose with the embedding above).  On a mention with a text element
the handler queries, dispatches, says once and returns; when the loops
fall through it inserts the message text as a document; a section or
rich-text block without an `elements` key raises a `TypeError`. -/
def reply (bot : String) (queryEngine : String → String)
    (dispatchFn : String → Except PyError String) (msg : Message) : ReplyResult :=
  match scanMsg bot msg with
  | StepRes.raised _ =>
    { queries := [], dispatches := [], sayCalls := [], inserts := []
      outcome := Except.error PyError.typeError }
  | StepRes.acted q =>
    let qs := SYSTEM_PROMPT_STR ++ " " ++ optStr q
    let resp := queryEngine qs
    match dispatchFn resp with
    | Except.error e =>
      { queries := [qs], dispatches := [resp], sayCalls := [], inserts := []
        outcome := Except.error e }
    | Except.ok rt =>
      { queries := [qs], dispatches := [resp], sayCalls := [rt], inserts := []
        outcome := Except.ok () }
  | StepRes.done _ =>
    { queries := [], dispatches := [], sayCalls := [], inserts := [msg.text]
      outcome := Except.ok () }

/-- Claim-side condition, stated from the spec's words: some section of the
rich-text block has an element mentioning the bot. -/
def sectionHasMention (bot : String) (s : RichTextSection) : Bool :=
  match s.elements with
  | some els => els.any (isBotMention bot)
  | none => false

/-- Claim-side condition: the block has type `rich_text`, an `elements`
list, and some section of it mentions the bot. -/
def blockHasMention (bot : String) (b : Block) : Bool :=
  (b.type = some "rich_text" : Bool) &&
  match b.elements with
  | some secs => secs.any (sectionHasMention bot)
  | none => false

/-- Claim-side rendering of the fixed 5-level lookup of C3: a truthy
`blocks` list with a `rich_text` block whose `elements` list has a member
whose inner `elements` list has an element of type `user` carrying the
bot's user id. -/
def specMentionB (bot : String) (msg : Message) : Bool :=
  match msg.blocks with
  | some bl => bl.any (blockHasMention bot)
  | none => false

/-- Whether the run escaped with an exception. -/
def raisedB : StepRes → Bool
  | StepRes.raised _ => true
  | _ => false

section Lemmas

lemma dictGet_facts {k : String} {kvs : List (String × Json)} {v : Json}
    (h : dictGet k kvs = some v) :
    dictHasKey k kvs = true ∧ pyDictTruthy kvs = true := by
  unfold dictGet at h
  cases hf : List.find? (fun kv => kv.1 = k) kvs with
  | none => rw [hf] at h; simp at h
  | some kv =>
    have hp : kv.1 = k := by
      have := List.find?_some hf
      simpa using this
    have hmem : kv ∈ kvs := List.mem_of_find?_eq_some hf
    constructor
    · unfold dictHasKey
      rw [List.any_eq_true]
      exact ⟨kv, hmem, by simp [hp]⟩
    · unfold pyDictTruthy
      cases kvs with
      | nil => exact absurd hmem (List.not_mem_nil kv)
      | cons a as => rfl

end Lemmas

/-- C1: with either tag pattern failing to match, `dispatch_store_action`
prints the error box, but then the final `return response_text` reads a
name that this branch never assigned: an `UnboundLocalError` escapes
instead of a failure string being returned.  The spec says a failure
string is returned, so the code contradicts the evident intent of its own
error branch. -/
theorem dispatch_missing_tag_raises (env : Env) (jsonLoads : String → Option Json)
    (post : HttpRequest → HttpResponse) :
    (dispatch_store_action env jsonLoads post "please create a coupon").result =
        Except.error PyError.unboundLocal ∧
    (dispatch_store_action env jsonLoads post "please create a coupon").logs =
        ["Failed to extract payload or endpoint."] :=
  ⟨rfl, rfl⟩

/-- C2: a POST whose JSON object body has a `"challenge"` key is answered
with that value echoed back and never reaches the Bolt handler; a body
without the key (or no JSON body at all) is forwarded to
`handler.handle`. -/
theorem slack_challenge_echo_or_forward :
    (∀ (kvs : List (String × Json)) (v : Json), dictGet "challenge" kvs = some v →
        slack_challenge (some kvs) = FlaskResponse.challengeEcho v) ∧
    (∀ kvs : List (String × Json), dictHasKey "challenge" kvs = false →
        slack_challenge (some kvs) = FlaskResponse.boltHandled) ∧
    slack_challenge none = FlaskResponse.boltHandled := by
  refine ⟨?_, ?_, rfl⟩
  · intro kvs v h
    obtain ⟨hk, ht⟩ := dictGet_facts h
    simp [slack_challenge, hk, ht, h]
  · intro kvs hk
    simp [slack_challenge, hk]

/-- Witness for C2 at concrete bodies: a body carrying the challenge is
echoed, one without it is forwarded. -/
theorem slack_challenge_echo_or_forward_witness :
    slack_challenge (some [("challenge", Json.str "abc123")]) =
        FlaskResponse.challengeEcho (Json.str "abc123") ∧
    slack_challenge (some [("type", Json.null)]) = FlaskResponse.boltHandled :=
  ⟨slack_challenge_echo_or_forward.1 _ _ rfl,
   slack_challenge_echo_or_forward.2.1 _ rfl⟩

/-- C7: at startup exactly one branch runs: when `./storage` is missing
the index is built from the fetched documents and persisted, and when it
exists the index is loaded from storage, never both. -/
theorem startup_index_one_branch (storage_exists : Bool) :
    (startup_index storage_exists = IndexInit.builtAndPersisted ↔ storage_exists = false) ∧
    (startup_index storage_exists = IndexInit.loadedFromStorage ↔ storage_exists = true) := by
  cases storage_exists <;> simp [startup_index]

/-- C10: the traversal of `reply` is not total: on a message whose
`rich_text` block has no `elements` key the block loop hands `None` to the
section loop, and the handler raises a `TypeError` instead of returning
(so nothing is said and nothing is stored). -/
theorem reply_rich_text_without_elements_raises
    (queryEngine : String → String) (dispatchFn : String → Except PyError String) :
    (reply "UBOT123" queryEngine dispatchFn
        { blocks := some [{ type := some "rich_text", elements := none }]
          text := some "hello there" }).outcome = Except.error PyError.typeError ∧
    (reply "UBOT123" queryEngine dispatchFn
        { blocks := some [{ type := some "rich_text", elements := none }]
          text := some "hello there" }).inserts = [] ∧
    (reply "UBOT123" queryEngine dispatchFn
        { blocks := some [{ type := some "rich_text", elements := none }]
          text := some "hello there" }).sayCalls = [] :=
  ⟨rfl, rfl, rfl⟩

/-- C4: whenever both tag patterns of `dispatch_store_action` match and
the stripped payload decodes as JSON, the function issues exactly one POST
whose URL is `WC_DOMAIN ++ "/" ++ endpoint` (the stripped endpoint group),
whose body is the decoded payload and whose basic-auth pair is the
consumer key and secret from the environment. -/
theorem dispatch_builds_request (env : Env) (jsonLoads : String → Option Json)
    (post : HttpRequest → HttpResponse) (data pm em : String) (body : Json)
    (h1 : extractTag "<PAYLOAD>" "</PAYLOAD>" data = some pm)
    (h2 : extractTag "<ENDPOINT>" "</ENDPOINT>" data = some em)
    (h3 : jsonLoads (pyStrip pm) = some body) :
    (dispatch_store_action env jsonLoads post data).posts =
      [{ url := optStr env.wc_domain ++ "/" ++ pyStrip em
         body := body
         auth_key := env.wc_consumer_key
         auth_secret := env.wc_consumer_secret }] := by
  simp [dispatch_store_action, h1, h2, h3, dispatchRequest]

/-- Witness for C4 on a concrete tagged LLM answer and concrete oracles. -/
theorem dispatch_builds_request_witness :
    extractTag "<PAYLOAD>" "</PAYLOAD>"
        "<PAYLOAD> pl </PAYLOAD><ENDPOINT> wp-json/wc/v3/products </ENDPOINT>" = some " pl " ∧
    extractTag "<ENDPOINT>" "</ENDPOINT>"
        "<PAYLOAD> pl </PAYLOAD><ENDPOINT> wp-json/wc/v3/products </ENDPOINT>" =
        some " wp-json/wc/v3/products " ∧
    (fun _ : String => some (Json.obj [])) (pyStrip " pl ") = some (Json.obj []) ∧
    (dispatch_store_action ⟨some "https://shop.example", some "ck", some "cs"⟩
        (fun _ => some (Json.obj [])) (fun _ => ⟨201, "created"⟩)
        "<PAYLOAD> pl </PAYLOAD><ENDPOINT> wp-json/wc/v3/products </ENDPOINT>").posts =
      [{ url := optStr (some "https://shop.example") ++ "/" ++ pyStrip " wp-json/wc/v3/products "
         body := Json.obj []
         auth_key := some "ck"
         auth_secret := some "cs" }] :=
  ⟨by decide, by decide, rfl,
   dispatch_builds_request ⟨some "https://shop.example", some "ck", some "cs"⟩
     (fun _ => some (Json.obj [])) (fun _ => ⟨201, "created"⟩)
     "<PAYLOAD> pl </PAYLOAD><ENDPOINT> wp-json/wc/v3/products </ENDPOINT>"
     " pl " " wp-json/wc/v3/products " (Json.obj [])
     (by decide) (by decide) rfl⟩

/-- C5: under the same matching hypotheses the `posts` list has length one
whatever status the oracle answers (the call is never retried), and when
that status is neither 200 nor 201 the returned string is the logged
failure line `"Failed API call: <status> - <body>"`. -/
theorem dispatch_single_post_failure_log (env : Env) (jsonLoads : String → Option Json)
    (post : HttpRequest → HttpResponse) (data pm em : String) (body : Json)
    (h1 : extractTag "<PAYLOAD>" "</PAYLOAD>" data = some pm)
    (h2 : extractTag "<ENDPOINT>" "</ENDPOINT>" data = some em)
    (h3 : jsonLoads (pyStrip pm) = some body) :
    (dispatch_store_action env jsonLoads post data).posts.length = 1 ∧
    ((post (dispatchRequest env body (pyStrip em))).status_code ≠ 200 →
     (post (dispatchRequest env body (pyStrip em))).status_code ≠ 201 →
     (dispatch_store_action env jsonLoads post data).result =
       Except.ok ("Failed API call: " ++
         toString (post (dispatchRequest env body (pyStrip em))).status_code ++ " - " ++
         (post (dispatchRequest env body (pyStrip em))).text) ∧
     ("Failed API call: " ++
         toString (post (dispatchRequest env body (pyStrip em))).status_code ++ " - " ++
         (post (dispatchRequest env body (pyStrip em))).text) ∈
       (dispatch_store_action env jsonLoads post data).logs) := by
  constructor
  · simp [dispatch_store_action, h1, h2, h3]
  · intro hs200 hs201
    constructor
    · simp [dispatch_store_action, h1, h2, h3, hs200, hs201]
    · simp [dispatch_store_action, h1, h2, h3, hs200, hs201]

/-- Witness for C5: a 404 answer yields one post and the logged failure
string carrying the status code. -/
theorem dispatch_single_post_failure_log_witness :
    extractTag "<PAYLOAD>" "</PAYLOAD>" "<PAYLOAD>null</PAYLOAD><ENDPOINT>e</ENDPOINT>" =
        some "null" ∧
    extractTag "<ENDPOINT>" "</ENDPOINT>" "<PAYLOAD>null</PAYLOAD><ENDPOINT>e</ENDPOINT>" =
        some "e" ∧
    (fun _ : String => some Json.null) (pyStrip "null") = some Json.null ∧
    (dispatch_store_action ⟨some "https://shop.example", some "ck", some "cs"⟩
        (fun _ => some Json.null) (fun _ => ⟨404, "nf"⟩)
        "<PAYLOAD>null</PAYLOAD><ENDPOINT>e</ENDPOINT>").posts.length = 1 ∧
    (dispatch_store_action ⟨some "https://shop.example", some "ck", some "cs"⟩
        (fun _ => some Json.null) (fun _ => ⟨404, "nf"⟩)
        "<PAYLOAD>null</PAYLOAD><ENDPOINT>e</ENDPOINT>").result =
      Except.ok ("Failed API call: " ++ toString (404 : Nat) ++ " - " ++ "nf") ∧
    ("Failed API call: " ++ toString (404 : Nat) ++ " - " ++ "nf") ∈
      (dispatch_store_action ⟨some "https://shop.example", some "ck", some "cs"⟩
        (fun _ => some Json.null) (fun _ => ⟨404, "nf"⟩)
        "<PAYLOAD>null</PAYLOAD><ENDPOINT>e</ENDPOINT>").logs :=
  ⟨by decide, by decide, rfl,
   (dispatch_single_post_failure_log ⟨some "https://shop.example", some "ck", some "cs"⟩
      (fun _ => some Json.null) (fun _ => ⟨404, "nf"⟩)
      "<PAYLOAD>null</PAYLOAD><ENDPOINT>e</ENDPOINT>" "null" "e" Json.null
      (by decide) (by decide) rfl).1,
   ((dispatch_single_post_failure_log ⟨some "https://shop.example", some "ck", some "cs"⟩
      (fun _ => some Json.null) (fun _ => ⟨404, "nf"⟩)
      "<PAYLOAD>null</PAYLOAD><ENDPOINT>e</ENDPOINT>" "null" "e" Json.null
      (by decide) (by decide) rfl).2 (by decide) (by decide)).1,
   ((dispatch_single_post_failure_log ⟨some "https://shop.example", some "ck", some "cs"⟩
      (fun _ => some Json.null) (fun _ => ⟨404, "nf"⟩)
      "<PAYLOAD>null</PAYLOAD><ENDPOINT>e</ENDPOINT>" "null" "e" Json.null
      (by decide) (by decide) rfl).2 (by decide) (by decide)).2⟩


section TraversalLemmas

/-- Closed form of the element loop: a mention element makes it act with
the first text of the section (or sets the flag when there is none);
otherwise the loop completes with the flag unchanged. -/
lemma scanElems_spec (bot : String) (secEls : List Element) :
    ∀ (els : List Element) (fired : Bool),
      scanElems bot secEls fired els =
        (if els.any (isBotMention bot) then
          (match findTextQuery secEls with
           | some q => Sum.inr q
           | none => Sum.inl true)
         else Sum.inl fired) := by
  intro els
  induction els with
  | nil => intro fired; simp [scanElems]
  | cons e rest ih =>
    intro fired
    obtain hm | hm := Bool.eq_false_or_eq_true (isBotMention bot e)
    · simp only [scanElems, List.any_cons, hm, Bool.true_or, if_pos rfl]
      cases hq : findTextQuery secEls with
      | some q => rfl
      | none =>
        rw [ih true, hq]
        cases rest.any (isBotMention bot) <;> simp
    · simp only [scanElems, List.any_cons, hm, Bool.false_or]
      rw [if_neg (by simp [hm])]
      exact ih fired

/-- Unfolding step: a section without an `elements` key raises. -/
lemma scanSecs_cons_none (bot : String) (fired : Bool) (rest : List RichTextSection)
    (s : RichTextSection) (hse : s.elements = none) :
    scanSecs bot fired (s :: rest) = StepRes.raised fired := by
  simp [scanSecs, hse]

/-- Unfolding step: a section with an `elements` list runs the element
loop on it. -/
lemma scanSecs_cons_some (bot : String) (fired : Bool) (rest : List RichTextSection)
    (s : RichTextSection) (els : List Element) (hse : s.elements = some els) :
    scanSecs bot fired (s :: rest) =
      (match scanElems bot els fired els with
       | Sum.inr q => StepRes.acted q
       | Sum.inl fired2 => scanSecs bot fired2 rest) := by
  simp only [scanSecs, hse]

/-- The element loop of a mention-free list completes with the flag
unchanged. -/
lemma scanElems_no_mention (bot : String) (secEls els : List Element) (fired : Bool)
    (ha : els.any (isBotMention bot) = false) :
    scanElems bot secEls fired els = Sum.inl fired := by
  rw [scanElems_spec, ha]; simp

/-- A mention plus a text element makes the element loop act. -/
lemma scanElems_mention_text (bot : String) (secEls els : List Element) (fired : Bool)
    (q : Option String) (ha : els.any (isBotMention bot) = true)
    (hq : findTextQuery secEls = some q) :
    scanElems bot secEls fired els = Sum.inr q := by
  rw [scanElems_spec, ha, hq]; simp

/-- A mention without a text element only sets the flag. -/
lemma scanElems_mention_no_text (bot : String) (secEls els : List Element) (fired : Bool)
    (ha : els.any (isBotMention bot) = true)
    (hq : findTextQuery secEls = none) :
    scanElems bot secEls fired els = Sum.inl true := by
  rw [scanElems_spec, ha, hq]; simp

/-- Under no exception, the section loop ends classified iff the flag was
already set or some section holds a mention element. -/
lemma scanSecs_classified (bot : String) :
    ∀ (secs : List RichTextSection) (fired : Bool),
      raisedB (scanSecs bot fired secs) = false →
      classifiedB (scanSecs bot fired secs) =
        (fired || secs.any (sectionHasMention bot)) := by
  intro secs
  induction secs with
  | nil => intro fired _; simp [scanSecs, classifiedB]
  | cons s rest ih =>
    intro fired h
    cases hse : s.elements with
    | none => rw [scanSecs_cons_none bot fired rest s hse] at h; simp [raisedB] at h
    | some els =>
      rw [scanSecs_cons_some bot fired rest s els hse] at h ⊢
      obtain ha | ha := Bool.eq_false_or_eq_true (els.any (isBotMention bot))
      · cases hq : findTextQuery els with
        | some q =>
          rw [scanElems_mention_text bot els els fired q ha hq] at h ⊢
          simp [classifiedB, List.any_cons, sectionHasMention, hse, ha]
        | none =>
          rw [scanElems_mention_no_text bot els els fired ha hq] at h ⊢
          simp only at h ⊢
          rw [ih true h]
          simp [List.any_cons, sectionHasMention, hse, ha]
      · rw [scanElems_no_mention bot els els fired ha] at h ⊢
        simp only at h ⊢
        rw [ih fired h]
        simp [List.any_cons, sectionHasMention, hse, ha, Bool.or_assoc]

/-- Unfolding step: a block that is not `rich_text` is skipped. -/
lemma scanBlocks_cons_skip (bot : String) (fired : Bool) (rest : List Block)
    (b : Block) (ht : ¬ b.type = some "rich_text") :
    scanBlocks bot fired (b :: rest) = scanBlocks bot fired rest := by
  simp only [scanBlocks, ht, if_false]

/-- Unfolding step: a `rich_text` block without an `elements` key raises. -/
lemma scanBlocks_cons_none (bot : String) (fired : Bool) (rest : List Block)
    (b : Block) (ht : b.type = some "rich_text") (hbe : b.elements = none) :
    scanBlocks bot fired (b :: rest) = StepRes.raised fired := by
  simp [scanBlocks, ht, hbe]

/-- Unfolding step: a `rich_text` block with sections runs the section
loop and continues with its flag when it completes. -/
lemma scanBlocks_cons_some (bot : String) (fired : Bool) (rest : List Block)
    (b : Block) (secs : List RichTextSection)
    (ht : b.type = some "rich_text") (hbe : b.elements = some secs) :
    scanBlocks bot fired (b :: rest) =
      (match scanSecs bot fired secs with
       | StepRes.done fired2 => scanBlocks bot fired2 rest
       | r => r) := by
  simp only [scanBlocks, ht, hbe, if_true]

/-- Under no exception, the block loop ends classified iff the flag was
already set or some `rich_text` block holds a mention. -/
lemma scanBlocks_classified (bot : String) :
    ∀ (bl : List Block) (fired : Bool),
      raisedB (scanBlocks bot fired bl) = false →
      classifiedB (scanBlocks bot fired bl) =
        (fired || bl.any (blockHasMention bot)) := by
  intro bl
  induction bl with
  | nil => intro fired _; simp [scanBlocks, classifiedB]
  | cons b rest ih =>
    intro fired h
    by_cases ht : b.type = some "rich_text"
    · cases hbe : b.elements with
      | none =>
        rw [scanBlocks_cons_none bot fired rest b ht hbe] at h
        simp [raisedB] at h
      | some secs =>
        rw [scanBlocks_cons_some bot fired rest b secs ht hbe] at h ⊢
        cases hs : scanSecs bot fired secs with
        | raised f => rw [hs] at h; simp [raisedB] at h
        | acted q =>
          have h2 := scanSecs_classified bot secs fired (by rw [hs]; rfl)
          rw [hs] at h2
          simp only [classifiedB] at h2 ⊢
          simp [List.any_cons, blockHasMention, ht, hbe, ← Bool.or_assoc, ← h2]
        | done fired2 =>
          rw [hs] at h
          simp only at h ⊢
          have h2 := scanSecs_classified bot secs fired (by rw [hs]; rfl)
          rw [hs] at h2
          simp only [classifiedB] at h2
          rw [ih fired2 h, h2]
          simp [List.any_cons, blockHasMention, ht, hbe, Bool.or_assoc]
    · rw [scanBlocks_cons_skip bot fired rest b ht] at h ⊢
      rw [ih fired h]
      simp [List.any_cons, blockHasMention, ht]

end TraversalLemmas

/-- C3 (amended): provided the traversal raises no exception, the handler
classifies the message as a mention of the bot (the line-178 test fires)
exactly when the 5-level lookup condition holds: truthy `blocks`, a block
of type `rich_text` with an `elements` list, a member of it with an
`elements` list, and an element there of type `user` whose `user_id` is
the bot's. -/
theorem mention_classification_matches_lookup (bot : String) (msg : Message)
    (h : raisedB (scanMsg bot msg) = false) :
    classifiedB (scanMsg bot msg) = specMentionB bot msg := by
  unfold scanMsg at h ⊢
  unfold specMentionB
  cases hb : msg.blocks with
  | none => simp [classifiedB]
  | some bl =>
    rw [hb] at h
    cases bl with
    | nil => simp [classifiedB]
    | cons b bs =>
      rw [scanBlocks_classified bot (b :: bs) false h]
      simp

/-- Witness for C3 at a clean mention message: no exception, and the
classification agrees with the lookup condition. -/
theorem mention_classification_matches_lookup_witness :
    raisedB (scanMsg "UBOT123"
      ⟨some [⟨some "rich_text", some [⟨some [⟨some "user", some "UBOT123", none⟩,
        ⟨some "text", none, some "hi bot"⟩]⟩]⟩], some "msg text"⟩) = false ∧
    classifiedB (scanMsg "UBOT123"
      ⟨some [⟨some "rich_text", some [⟨some [⟨some "user", some "UBOT123", none⟩,
        ⟨some "text", none, some "hi bot"⟩]⟩]⟩], some "msg text"⟩) =
      specMentionB "UBOT123"
      ⟨some [⟨some "rich_text", some [⟨some [⟨some "user", some "UBOT123", none⟩,
        ⟨some "text", none, some "hi bot"⟩]⟩]⟩], some "msg text"⟩ :=
  ⟨by decide, mention_classification_matches_lookup "UBOT123" _ (by decide)⟩

/-- Counterexample to C3 as stated: here the 5-level lookup condition
holds (the second block carries a mention of the bot), yet the handler
never classifies the message as a mention: iterating the first `rich_text`
block, whose `elements` key is missing, raises first. -/
theorem mention_classification_raise_counterexample :
    specMentionB "UBOT123"
      ⟨some [⟨some "rich_text", none⟩,
             ⟨some "rich_text", some [⟨some [⟨some "user", some "UBOT123", none⟩]⟩]⟩],
       some "msg text"⟩ = true ∧
    scanMsg "UBOT123"
      ⟨some [⟨some "rich_text", none⟩,
             ⟨some "rich_text", some [⟨some [⟨some "user", some "UBOT123", none⟩]⟩]⟩],
       some "msg text"⟩ = StepRes.raised false ∧
    classifiedB (scanMsg "UBOT123"
      ⟨some [⟨some "rich_text", none⟩,
             ⟨some "rich_text", some [⟨some [⟨some "user", some "UBOT123", none⟩]⟩]⟩],
       some "msg text"⟩) = false :=
  ⟨by decide, by decide, by decide⟩

/-- C6: when the traversal acts on a mention whose section has a text
element carrying `t`, and the dispatch of the engine's answer returns a
string, the handler queries the index once with the system prompt (the
interpolated 4-tuple) and a space glued to `t`, hands the engine's answer
to `dispatch_store_action` once, says its result exactly once, stores
nothing and returns. -/
theorem reply_mention_with_text_says_once (bot : String)
    (queryEngine : String → String) (dispatchFn : String → Except PyError String)
    (msg : Message) (t rt : String)
    (h1 : scanMsg bot msg = StepRes.acted (some t))
    (h2 : dispatchFn (queryEngine (SYSTEM_PROMPT_STR ++ " " ++ t)) = Except.ok rt) :
    (reply bot queryEngine dispatchFn msg).queries = [SYSTEM_PROMPT_STR ++ " " ++ t] ∧
    (reply bot queryEngine dispatchFn msg).dispatches =
        [queryEngine (SYSTEM_PROMPT_STR ++ " " ++ t)] ∧
    (reply bot queryEngine dispatchFn msg).sayCalls = [rt] ∧
    (reply bot queryEngine dispatchFn msg).inserts = [] ∧
    (reply bot queryEngine dispatchFn msg).outcome = Except.ok () := by
  simp [reply, h1, optStr, h2]

/-- Witness for C6 at a concrete mention-with-text message and concrete
engine and dispatch oracles. -/
theorem reply_mention_with_text_says_once_witness :
    scanMsg "UBOT123"
      ⟨some [⟨some "rich_text", some [⟨some [⟨some "user", some "UBOT123", none⟩,
        ⟨some "text", none, some "hi bot"⟩]⟩]⟩], some "msg text"⟩ =
      StepRes.acted (some "hi bot") ∧
    (fun _ : String => Except.ok (ε := PyError) "SAID")
        ((fun _ : String => "LLMRESP") (SYSTEM_PROMPT_STR ++ " " ++ "hi bot")) =
      Except.ok "SAID" ∧
    (reply "UBOT123" (fun _ => "LLMRESP") (fun _ => Except.ok "SAID")
      ⟨some [⟨some "rich_text", some [⟨some [⟨some "user", some "UBOT123", none⟩,
        ⟨some "text", none, some "hi bot"⟩]⟩]⟩], some "msg text"⟩).queries =
      [SYSTEM_PROMPT_STR ++ " " ++ "hi bot"] ∧
    (reply "UBOT123" (fun _ => "LLMRESP") (fun _ => Except.ok "SAID")
      ⟨some [⟨some "rich_text", some [⟨some [⟨some "user", some "UBOT123", none⟩,
        ⟨some "text", none, some "hi bot"⟩]⟩]⟩], some "msg text"⟩).sayCalls = ["SAID"] :=
  ⟨by decide, rfl,
   (reply_mention_with_text_says_once "UBOT123" (fun _ => "LLMRESP")
      (fun _ => Except.ok "SAID")
      ⟨some [⟨some "rich_text", some [⟨some [⟨some "user", some "UBOT123", none⟩,
        ⟨some "text", none, some "hi bot"⟩]⟩]⟩], some "msg text"⟩
      "hi bot" "SAID" (by decide) rfl).1,
   (reply_mention_with_text_says_once "UBOT123" (fun _ => "LLMRESP")
      (fun _ => Except.ok "SAID")
      ⟨some [⟨some "rich_text", some [⟨some [⟨some "user", some "UBOT123", none⟩,
        ⟨some "text", none, some "hi bot"⟩]⟩]⟩], some "msg text"⟩
      "hi bot" "SAID" (by decide) rfl).2.2.1⟩

/-- C8 (amended): on a message the traversal completes on without ever
classifying it as a mention (this includes every message with no `blocks`
key), the handler inserts a document holding the message's `text` value
and never calls `say` or the query engine. -/
theorem reply_nonmention_stores_text (bot : String)
    (queryEngine : String → String) (dispatchFn : String → Except PyError String)
    (msg : Message)
    (h1 : raisedB (scanMsg bot msg) = false)
    (h2 : classifiedB (scanMsg bot msg) = false) :
    (reply bot queryEngine dispatchFn msg).inserts = [msg.text] ∧
    (reply bot queryEngine dispatchFn msg).sayCalls = [] ∧
    (reply bot queryEngine dispatchFn msg).queries = [] ∧
    (reply bot queryEngine dispatchFn msg).outcome = Except.ok () := by
  have hdone : scanMsg bot msg = StepRes.done false := by
    cases hs : scanMsg bot msg with
    | raised f => rw [hs] at h1; simp [raisedB] at h1
    | acted q => rw [hs] at h2; simp [classifiedB] at h2
    | done f => rw [hs] at h2; simp only [classifiedB] at h2; rw [h2]
  simp [reply, hdone]

/-- Witness for C8 at a plain message with no `blocks` key. -/
theorem reply_nonmention_stores_text_witness :
    raisedB (scanMsg "UBOT123" ⟨none, some "just chatting"⟩) = false ∧
    classifiedB (scanMsg "UBOT123" ⟨none, some "just chatting"⟩) = false ∧
    (reply "UBOT123" (fun _ => "LLMRESP") (fun _ => Except.ok "SAID")
        ⟨none, some "just chatting"⟩).inserts = [some "just chatting"] ∧
    (reply "UBOT123" (fun _ => "LLMRESP") (fun _ => Except.ok "SAID")
        ⟨none, some "just chatting"⟩).sayCalls = [] :=
  ⟨by decide, by decide,
   (reply_nonmention_stores_text "UBOT123" (fun _ => "LLMRESP")
      (fun _ => Except.ok "SAID") ⟨none, some "just chatting"⟩
      (by decide) (by decide)).1,
   (reply_nonmention_stores_text "UBOT123" (fun _ => "LLMRESP")
      (fun _ => Except.ok "SAID") ⟨none, some "just chatting"⟩
      (by decide) (by decide)).2.1⟩

/-- Counterexample to C8 as stated: this message is never classified as a
mention, yet the handler stores nothing and says nothing: it raises while
iterating the `rich_text` block whose `elements` key is missing. -/
theorem reply_nonmention_raise_counterexample :
    classifiedB (scanMsg "UBOT123" ⟨some [⟨some "rich_text", none⟩], some "hello"⟩) = false ∧
    (reply "UBOT123" (fun _ => "LLMRESP") (fun _ => Except.ok "SAID")
        ⟨some [⟨some "rich_text", none⟩], some "hello"⟩).inserts = [] ∧
    (reply "UBOT123" (fun _ => "LLMRESP") (fun _ => Except.ok "SAID")
        ⟨some [⟨some "rich_text", none⟩], some "hello"⟩).sayCalls = [] ∧
    (reply "UBOT123" (fun _ => "LLMRESP") (fun _ => Except.ok "SAID")
        ⟨some [⟨some "rich_text", none⟩], some "hello"⟩).outcome =
      Except.error PyError.typeError :=
  ⟨by decide, by decide, by decide, rfl⟩

/-- C9 (amended): when a mention fired but the loops fell through (no text
element ever answered it) and no exception was raised, the handler stores
the message's `text` value and never replies, exactly as for a non-mention
message. -/
theorem reply_mention_without_text_stores (bot : String)
    (queryEngine : String → String) (dispatchFn : String → Except PyError String)
    (msg : Message)
    (h : scanMsg bot msg = StepRes.done true) :
    (reply bot queryEngine dispatchFn msg).inserts = [msg.text] ∧
    (reply bot queryEngine dispatchFn msg).sayCalls = [] ∧
    (reply bot queryEngine dispatchFn msg).queries = [] ∧
    (reply bot queryEngine dispatchFn msg).outcome = Except.ok () := by
  simp [reply, h]

/-- Witness for C9 at a message whose mentioning section has no text
element. -/
theorem reply_mention_without_text_stores_witness :
    scanMsg "UBOT123"
      ⟨some [⟨some "rich_text", some [⟨some [⟨some "user", some "UBOT123", none⟩]⟩]⟩],
       some "mention only"⟩ = StepRes.done true ∧
    (reply "UBOT123" (fun _ => "LLMRESP") (fun _ => Except.ok "SAID")
      ⟨some [⟨some "rich_text", some [⟨some [⟨some "user", some "UBOT123", none⟩]⟩]⟩],
       some "mention only"⟩).inserts = [some "mention only"] ∧
    (reply "UBOT123" (fun _ => "LLMRESP") (fun _ => Except.ok "SAID")
      ⟨some [⟨some "rich_text", some [⟨some [⟨some "user", some "UBOT123", none⟩]⟩]⟩],
       some "mention only"⟩).sayCalls = [] :=
  ⟨by decide,
   (reply_mention_without_text_stores "UBOT123" (fun _ => "LLMRESP")
      (fun _ => Except.ok "SAID")
      ⟨some [⟨some "rich_text", some [⟨some [⟨some "user", some "UBOT123", none⟩]⟩]⟩],
       some "mention only"⟩ (by decide)).1,
   (reply_mention_without_text_stores "UBOT123" (fun _ => "LLMRESP")
      (fun _ => Except.ok "SAID")
      ⟨some [⟨some "rich_text", some [⟨some [⟨some "user", some "UBOT123", none⟩]⟩]⟩],
       some "mention only"⟩ (by decide)).2.1⟩

/-- Counterexample to C9 as stated: this message carries a mention of the
bot whose section has no text element (the classification fired), yet the
handler neither stores nor returns: the later `rich_text` block without an
`elements` key makes it raise. -/
theorem reply_mention_without_text_raise_counterexample :
    classifiedB (scanMsg "UBOT123"
      ⟨some [⟨some "rich_text", some [⟨some [⟨some "user", some "UBOT123", none⟩]⟩]⟩,
             ⟨some "rich_text", none⟩], some "txt"⟩) = true ∧
    findTextQuery [⟨some "user", some "UBOT123", none⟩] = none ∧
    (reply "UBOT123" (fun _ => "LLMRESP") (fun _ => Except.ok "SAID")
      ⟨some [⟨some "rich_text", some [⟨some [⟨some "user", some "UBOT123", none⟩]⟩]⟩,
             ⟨some "rich_text", none⟩], some "txt"⟩).inserts = [] ∧
    (reply "UBOT123" (fun _ => "LLMRESP") (fun _ => Except.ok "SAID")
      ⟨some [⟨some "rich_text", some [⟨some [⟨some "user", some "UBOT123", none⟩]⟩]⟩,
             ⟨some "rich_text", none⟩], some "txt"⟩).sayCalls = [] ∧
    (reply "UBOT123" (fun _ => "LLMRESP") (fun _ => Except.ok "SAID")
      ⟨some [⟨some "rich_text", some [⟨some [⟨some "user", some "UBOT123", none⟩]⟩]⟩,
             ⟨some "rich_text", none⟩], some "txt"⟩).outcome =
      Except.error PyError.typeError :=
  ⟨by decide, by decide, by decide, by decide, rfl⟩
